import Mathlib

/-!
Shallow embedding of the job submission / polling engine of
`perfkitbenchmarker/dpb_service.py` (PerfKitBenchmarker), together with the
collaborator contracts (`vm_util.Retry`, `vm_util.RunThreaded`,
`resource.BaseResource`) that the module uses but whose sources are not part
of this repository snapshot; those collaborators are modelled from the spec
and are marked as such in their doc comments.

Conventions of the embedding:
* Python `datetime` instants and `float` durations are modelled as `ℚ`.
* A Python function that may raise is modelled as returning `Except DpbError α`.
* A Python `dict` is modelled as an association list in key insertion order;
  `dictInsert` mirrors `d[k] = v` and `dictUpdate` mirrors `d.update(other)`.
* Nondeterministic inputs (current wall-clock time, the remote transport, the
  backend's view of a job) are passed as explicit parameters.
-/

namespace PKB

/-- `errors.VirtualMachine.RemoteCommandError`: failure of the remote-command
transport (the SSH layer), carrying a diagnostic message. -/
structure RemoteCommandError where
  msg : String
deriving DecidableEq, Repr

/-- The exception universe relevant to `dpb_service.py`.
`jobSubmissionError` models `JobSubmissionError` (its optional cause is the
`raise ... from e` cause), `remoteCommandError` models a raw transport error
escaping, `jobNotCompletedError` models `JobNotCompletedError`,
`valueError`, `notImplementedError` and `assertionError` model the
corresponding Python built-ins. -/
inductive DpbError where
  | jobSubmissionError (cause : Option RemoteCommandError)
  | remoteCommandError (e : RemoteCommandError)
  | notImplementedError (msg : String)
  | valueError (msg : String)
  | jobNotCompletedError (msg : String)
  | assertionError
deriving DecidableEq, Repr

/-- `JobResult` (dpb_service.py line 92): timing of a successful DPB job.
`pending_time` defaults to `0` exactly as in the dataclass. -/
structure JobResult where
  run_time : ℚ
  pending_time : ℚ := 0
deriving DecidableEq, Repr

/-- `JobResult.wall_time` (line 100): the total time the service reported it
took to execute. -/
def JobResult.wall_time (r : JobResult) : ℚ :=
  r.run_time + r.pending_time

/-- `BaseDpbService._ProcessWallTime` (line 308): raises `ValueError` when
`start_time > end_time`, otherwise returns `(end_time - start_time)` in
seconds. -/
def ProcessWallTime (start_time end_time : ℚ) : Except DpbError ℚ :=
  if start_time > end_time then
    Except.error (DpbError.valueError "start_time cannot be later than the end_time")
  else
    Except.ok (end_time - start_time)

/-- The retryable-exception predicate of the `vm_util.Retry` call in
`BaseDpbService._WaitForJob` (line 216): `retryable_exceptions =
(JobNotCompletedError,)`, so `JobNotCompletedError` is retryable and nothing
else is. -/
def isRetryable (e : DpbError) : Bool :=
  match e with
  | DpbError.jobNotCompletedError _ => true
  | _ => false

/-- The inner `Poll` closure of `BaseDpbService._WaitForJob` (line 221): calls
`_GetCompletedJob`; a `None` result is raised as `JobNotCompletedError`, a
completed result is returned, and any exception from `_GetCompletedJob`
propagates.  The backend's time-varying answer is modelled as a function of
the poll attempt index. -/
def Poll (job_id : String) (getCompletedJob : Nat → Except DpbError (Option JobResult))
    (n : Nat) : Except DpbError JobResult :=
  match getCompletedJob n with
  | Except.error e => Except.error e
  | Except.ok none =>
      Except.error (DpbError.jobNotCompletedError ("Job " ++ job_id ++ " not complete."))
  | Except.ok (some r) => Except.ok r

/-- Outcome of a retried operation: a result, a propagated non-retryable
exception, or expiry of the deadline.  The timeout outcome is a distinct
constructor, not a `DpbError`. -/
inductive RetryResult (α : Type) where
  | ok (a : α)
  | err (e : DpbError)
  | timeout
deriving DecidableEq, Repr

/-- Modelled from the spec: `vm_util.Retry` (module `vm_util` is not under
`src/`).  Per §4.3 and §4.4 of the spec it repeatedly invokes the probe on a
fixed `poll_interval` spacing (`fuzz=0` here) until the probe returns a
result, raises a non-retryable exception (which propagates immediately), or
the `timeout` deadline passes, in which case it fails with a timeout
condition distinct from any job failure.  `fuel` is the number of retries
that still fit before the deadline; attempt indices count up from `n`. -/
def RetryLoop (probe : Nat → Except DpbError α) : Nat → Nat → RetryResult α
  | 0, n =>
    match probe n with
    | Except.ok a => RetryResult.ok a
    | Except.error e =>
        if isRetryable e then RetryResult.timeout else RetryResult.err e
  | fuel + 1, n =>
    match probe n with
    | Except.ok a => RetryResult.ok a
    | Except.error e =>
        if isRetryable e then RetryLoop probe fuel (n + 1) else RetryResult.err e

/-- Modelled from the spec: the number of retries of the `vm_util.Retry`
polling loop that fit in `timeout` when attempts are spaced `poll_interval`
apart. -/
def retryBudget (timeout poll_interval : ℚ) : Nat :=
  if 0 < poll_interval then (Rat.floor (timeout / poll_interval)).toNat else 0

/-- `BaseDpbService._WaitForJob` (line 214): the polling protocol, i.e. the
`vm_util.Retry`-decorated `Poll` closure run with the given timeout and poll
interval. -/
def WaitForJob (job_id : String) (getCompletedJob : Nat → Except DpbError (Option JobResult))
    (timeout poll_interval : ℚ) : RetryResult JobResult :=
  RetryLoop (Poll job_id getCompletedJob) (retryBudget timeout poll_interval) 0

/-- `BaseDpbService._GetCompletedJob` (line 229): the base class always raises
`NotImplementedError`. -/
def BaseGetCompletedJob (job_id : String) : Except DpbError (Option JobResult) :=
  Except.error (DpbError.notImplementedError
    "You need to implement _GetCompletedJob if you use _WaitForJob")

/-- `UnmanagedDpbServiceYarnCluster._GetCompletedJob` (line 465): always
raises `NotImplementedError` because submitting a job via SSH is blocking. -/
def YarnGetCompletedJob (job_id : String) : Except DpbError (Option JobResult) :=
  Except.error (DpbError.notImplementedError "Submitting Job via SSH is a blocking command.")

/-- `UnmanagedDpbSparkCluster._GetCompletedJob` (line 566): always raises
`NotImplementedError` because submitting a job via SSH is blocking. -/
def SparkGetCompletedJob (job_id : String) : Except DpbError (Option JobResult) :=
  Except.error (DpbError.notImplementedError "Submitting Job via SSH is a blocking command.")

/-! ### Python dict model -/

/-- Python `d[k] = v` on an insertion-ordered association list: an existing
key keeps its position and gets the new value, a new key is appended. -/
def dictInsert (acc : List (String × String)) (k v : String) : List (String × String) :=
  if acc.any (fun p => p.1 = k) then
    acc.map (fun p => if p.1 = k then (k, v) else p)
  else
    acc ++ [(k, v)]

/-- Python `base.update(upd)`: every key/value pair of `upd` is inserted into
`base` in order. -/
def dictUpdate (base upd : List (String × String)) : List (String × String) :=
  upd.foldl (fun acc p => dictInsert acc p.1 p.2) base

/-- Python `dict(pairs)`: build a dict from a sequence of pairs, later
occurrences of a key overriding earlier ones. -/
def pyDict (pairs : List (String × String)) : List (String × String) :=
  dictUpdate [] pairs

/-- `BaseDpbService.GetJobProperties` (line 325):
`dict(pair.split('=') for pair in FLAGS.dpb_job_properties)`.  The flag value
is an explicit parameter; a pair that does not split into exactly a key and a
value makes the `dict` constructor raise, modelled as `none`. -/
def GetJobProperties (dpb_job_properties : List String) : Option (List (String × String)) :=
  (dpb_job_properties.mapM (fun (pair : String) =>
    match pair.splitOn "=" with
    | [k, v] => some (k, v)
    | _ => none)).map pyDict

/-- Lines 442-443 / 534-535: `all_properties = self.GetJobProperties()`
followed by `all_properties.update(properties or {})`, with the already
parsed defaults as a parameter and `None` caller properties as `none`. -/
def effectiveProperties (defaults : List (String × String))
    (properties : Option (List (String × String))) : List (String × String) :=
  dictUpdate defaults (properties.getD [])

/-! ### SubmitJob for the unmanaged clusters -/

/-- Python truthiness of an optional string argument (`if jarfile:`):
`None` and the empty string are falsy. -/
def truthyStr (o : Option String) : Bool :=
  match o with
  | none => false
  | some s => !s.isEmpty

/-- Python truthiness of an optional list argument (`if job_arguments:`):
`None` and the empty list are falsy. -/
def truthyList (o : Option (List String)) : Bool :=
  match o with
  | none => false
  | some l => !l.isEmpty

/-- The keyword arguments of `BaseDpbService.SubmitJob` (line 173), all
defaulting to `None`. -/
structure SubmitJobArgs where
  jarfile : Option String := none
  classname : Option String := none
  pyspark_file : Option String := none
  query_file : Option String := none
  job_poll_interval : Option ℚ := none
  job_stdout_file : Option String := none
  job_arguments : Option (List String) := none
  job_files : Option (List String) := none
  job_jars : Option (List String) := none
  job_type : Option String := none
  properties : Option (List (String × String)) := none
deriving DecidableEq, Repr

/-- `BaseDpbService.HADOOP_JOB_TYPE` (line 136). -/
def HADOOP_JOB_TYPE : String := "hadoop"

/-- `BaseDpbService.SPARK_JOB_TYPE` (line 135). -/
def SPARK_JOB_TYPE : String := "spark"

/-- `BaseDpbService.PYSPARK_JOB_TYPE` (line 133). -/
def PYSPARK_JOB_TYPE : String := "pyspark"

/-- Modelled from the spec: `hadoop.HADOOP_CMD` — the hadoop launcher
invocation; `linux_packages/hadoop.py` is not under `src/`, so the concrete
path is a stand-in constant. -/
def HADOOP_CMD : String := "hadoop-cmd"

/-- Modelled from the spec: `spark.SPARK_SUBMIT` — the spark-submit launcher
invocation; `linux_packages/spark.py` is not under `src/`, so the concrete
path is a stand-in constant. -/
def SPARK_SUBMIT : String := "spark-submit-cmd"

/-- Command construction of `UnmanagedDpbServiceYarnCluster.SubmitJob`
(lines 434-447): hadoop launcher, then `jar <jarfile>` if a jarfile is given,
then the classname if given, then one `-Dkey=value` per merged property, then
the job arguments. -/
def buildYarnCmd (defaults : List (String × String)) (args : SubmitJobArgs) : List String :=
  let cmd_list := [HADOOP_CMD]
  let cmd_list := if truthyStr args.jarfile then
      cmd_list ++ ["jar", args.jarfile.getD ""] else cmd_list
  let cmd_list := if truthyStr args.classname then
      cmd_list ++ [args.classname.getD ""] else cmd_list
  let all_properties := effectiveProperties defaults args.properties
  let cmd_list := cmd_list ++ all_properties.map (fun p => "-D" ++ p.1 ++ "=" ++ p.2)
  let cmd_list := if truthyList args.job_arguments then
      cmd_list ++ args.job_arguments.getD [] else cmd_list
  cmd_list

/-- `UnmanagedDpbServiceYarnCluster.SubmitJob` (line 419): rejects non-hadoop
job types with `NotImplementedError`, builds the command string, runs it on
the leader via the transport, wraps a `RemoteCommandError` into
`JobSubmissionError` with the transport error as cause, and on success
returns a `JobResult` whose `run_time` is the locally measured elapsed
time.  The transport and the two clock readings are explicit parameters. -/
def YarnSubmitJob (defaults : List (String × String))
    (transport : String → Except RemoteCommandError (String × String))
    (start_time end_time : ℚ) (args : SubmitJobArgs) : Except DpbError JobResult :=
  if args.job_type ≠ some HADOOP_JOB_TYPE then
    Except.error (DpbError.notImplementedError "")
  else
    match transport (String.intercalate " " (buildYarnCmd defaults args)) with
    | Except.error e => Except.error (DpbError.jobSubmissionError (some e))
    | Except.ok _ => Except.ok { run_time := end_time - start_time }

/-- Command construction of `UnmanagedDpbSparkCluster.SubmitJob`
(lines 530-548): spark-submit launcher, `--class <classname>` if given, one
`--conf key=value` pair per merged property; then, if `job_files` is truthy,
the whole command list is REASSIGNED to `['--files', ','.join(job_files)]`
(line 539, not extended); then the main jar (spark) or pyspark file (pyspark)
— asserted truthy — and finally the job arguments. -/
def buildSparkCmd (defaults : List (String × String)) (args : SubmitJobArgs) :
    Except DpbError (List String) :=
  let cmd := [SPARK_SUBMIT]
  let cmd := if truthyStr args.classname then cmd ++ ["--class", args.classname.getD ""] else cmd
  let all_properties := effectiveProperties defaults args.properties
  let cmd := cmd ++ (all_properties.map (fun p => ["--conf", p.1 ++ "=" ++ p.2])).flatten
  let cmd := if truthyList args.job_files then
      ["--files", String.intercalate "," (args.job_files.getD [])] else cmd
  match
    (if args.job_type = some SPARK_JOB_TYPE then
      if truthyStr args.jarfile then Except.ok (cmd ++ [args.jarfile.getD ""])
      else Except.error DpbError.assertionError
    else if args.job_type = some PYSPARK_JOB_TYPE then
      if truthyStr args.pyspark_file then Except.ok (cmd ++ [args.pyspark_file.getD ""])
      else Except.error DpbError.assertionError
    else Except.ok cmd : Except DpbError (List String)) with
  | Except.error e => Except.error e
  | Except.ok cmd =>
      Except.ok (if truthyList args.job_arguments then cmd ++ args.job_arguments.getD [] else cmd)

/-- `UnmanagedDpbSparkCluster.SubmitJob` (line 511): rejects job types other
than pyspark/spark with `NotImplementedError`, builds the command, runs it on
the leader via the transport, wraps a `RemoteCommandError` into
`JobSubmissionError` with the transport error as cause, and on success
returns a `JobResult` whose `run_time` is the locally measured elapsed
time. -/
def SparkSubmitJob (defaults : List (String × String))
    (transport : String → Except RemoteCommandError (String × String))
    (start_time end_time : ℚ) (args : SubmitJobArgs) : Except DpbError JobResult :=
  if args.job_type = some PYSPARK_JOB_TYPE ∨ args.job_type = some SPARK_JOB_TYPE then
    match buildSparkCmd defaults args with
    | Except.error e => Except.error e
    | Except.ok cmd =>
      match transport (String.intercalate " " cmd) with
      | Except.error e => Except.error (DpbError.jobSubmissionError (some e))
      | Except.ok _ => Except.ok { run_time := end_time - start_time }
  else
    Except.error (DpbError.notImplementedError "")

/-- `BaseDpbService.DistributedCopy` (line 245): a `SubmitJob` call with the
classname fixed to `org.apache.hadoop.tools.DistCp`, the job arguments
`[source, destination]`, the hadoop job type, and the given properties; the
service's abstract `SubmitJob` is a parameter. -/
def DistributedCopy (submitJob : SubmitJobArgs → Except DpbError JobResult)
    (source destination : String) (properties : Option (List (String × String))) :
    Except DpbError JobResult :=
  submitJob
    { classname := some "org.apache.hadoop.tools.DistCp"
      job_arguments := some [source, destination]
      job_type := some HADOOP_JOB_TYPE
      properties := properties }

/-! ### Resource lifecycle -/

/-- The slice of the dpb service spec that `BaseDpbService.__init__` reads. -/
structure DpbServiceSpec where
  static_dpb_service_instance : Option String := none
  version : Option String := none
deriving DecidableEq, Repr

/-- The state `BaseDpbService.__init__` (line 146) establishes: user-managed
iff `static_dpb_service_instance` is set, in which case `cluster_id` is that
instance name, otherwise `pkb-<run_uri>`. -/
structure DpbService where
  user_managed : Bool
  cluster_id : String
  bucket : String
deriving DecidableEq, Repr

/-- `BaseDpbService.__init__` (line 146), with `FLAGS.run_uri` explicit.
Line 152 computes `user_managed` with an `is not None` test, while line 158
picks `cluster_id` with a Python truthiness test (`if
dpb_service_spec.static_dpb_service_instance:`), under which the empty string
is falsy — the two tests disagree at `some ""`. -/
def BaseDpbServiceInit (dpb_service_spec : DpbServiceSpec) (run_uri : String) : DpbService :=
  let is_user_managed := dpb_service_spec.static_dpb_service_instance.isSome
  { user_managed := is_user_managed
    cluster_id :=
      if truthyStr dpb_service_spec.static_dpb_service_instance then
        dpb_service_spec.static_dpb_service_instance.getD ""
      else
        "pkb-" ++ run_uri
    bucket := "pkb-" ++ run_uri }

/-- The observable hook invocations of the resource lifecycle engine. -/
inductive LifecycleEvent where
  | createDependencies
  | createHook
  | deleteHook
  | deleteDependencies
deriving DecidableEq, Repr

/-- Modelled from the spec: `resource.BaseResource.Create` (module
`resource` is not under `src/`).  Per §4.1: if `userManaged`, it returns
success immediately without side effects; otherwise it provisions the
dependency resources and then invokes the backend creation hook (`_Create`)
exactly once.  The value is the trace of hook invocations. -/
def ResourceCreate (user_managed : Bool) : List LifecycleEvent :=
  if user_managed then []
  else [LifecycleEvent.createDependencies, LifecycleEvent.createHook]

/-- Modelled from the spec: `resource.BaseResource.Delete` (module
`resource` is not under `src/`).  Per §4.1: if `userManaged`, it is a no-op;
otherwise it invokes the backend deletion hook (`_Delete`) and then removes
the dependency resources.  The value is the trace of hook invocations. -/
def ResourceDelete (user_managed : Bool) : List LifecycleEvent :=
  if user_managed then []
  else [LifecycleEvent.deleteHook, LifecycleEvent.deleteDependencies]

/-! ### Concurrent runner -/

/-- Modelled from the spec: the execution of `vm_util.RunThreaded`'s worker
pool (module `vm_util` is not under `src/`).  The nondeterministic completion
order of the threads is an explicit parameter: the pool yields the pair
`(i, f targets[i])` for each index `i` in completion order. -/
def RunCompletionOrder (f : α → β) (targets : List α) (order : List Nat) :
    List (Nat × β) :=
  order.filterMap (fun i => (targets.get? i).map (fun t => (i, f t)))

/-- Modelled from the spec: `vm_util.RunThreaded` (module `vm_util` is not
under `src/`).  Per §4.4: runs `f` on every target concurrently and returns
the results aligned to the input order of the targets, not the completion
order, which is the explicit `order` parameter. -/
def RunThreaded (f : α → β) (targets : List α) (order : List Nat) : List β :=
  (List.range targets.length).filterMap
    (fun i => (RunCompletionOrder f targets order).lookup i)

/-! ## Theorems -/

/-- Claim C2: for every pair of instants, if `start_time` is later than
`end_time` then `_ProcessWallTime` raises `ValueError` — a contract
violation, not a retryable condition — and never returns a negative
duration; otherwise it returns the non-negative elapsed time
`end_time - start_time` in seconds. -/
theorem processWallTime_spec (start_time end_time : ℚ) :
    (start_time > end_time →
      ProcessWallTime start_time end_time =
        Except.error (DpbError.valueError "start_time cannot be later than the end_time"))
  ∧ (¬ start_time > end_time →
      ProcessWallTime start_time end_time = Except.ok (end_time - start_time)
      ∧ 0 ≤ end_time - start_time)
  ∧ (∀ r, ProcessWallTime start_time end_time = Except.ok r → 0 ≤ r)
  ∧ (∀ msg, isRetryable (DpbError.valueError msg) = false) := by
  refine ⟨fun h => by simp [ProcessWallTime, h], fun h => ?_, fun r hr => ?_, fun msg => rfl⟩
  · have h' : start_time ≤ end_time := le_of_not_lt h
    exact ⟨by simp [ProcessWallTime, h], by linarith⟩
  · by_cases h : start_time > end_time
    · simp [ProcessWallTime, h] at hr
    · have h' : start_time ≤ end_time := le_of_not_lt h
      simp [ProcessWallTime, h] at hr
      linarith [hr]

theorem processWallTime_spec_witness :
    ProcessWallTime 5 3 =
      Except.error (DpbError.valueError "start_time cannot be later than the end_time")
  ∧ ProcessWallTime 3 5 = Except.ok (5 - 3) :=
  ⟨(processWallTime_spec 5 3).1 (by norm_num),
   ((processWallTime_spec 3 5).2.1 (by norm_num)).1⟩

/-- Claim C4: for every `JobResult` with `run_time ≥ 0` and
`pending_time ≥ 0`, `wall_time = run_time + pending_time`; `pending_time`
defaults to `0` when not supplied, in which case `wall_time = run_time`. -/
theorem jobResult_wall_time_spec (r p : ℚ) (hr : 0 ≤ r) (hp : 0 ≤ p) :
    (JobResult.mk r p).wall_time = r + p
  ∧ ({ run_time := r } : JobResult).pending_time = 0
  ∧ ({ run_time := r } : JobResult).wall_time = r := by
  refine ⟨rfl, rfl, ?_⟩
  simp [JobResult.wall_time]

theorem jobResult_wall_time_spec_witness :
    (JobResult.mk 2 3).wall_time = 2 + 3 ∧ ({ run_time := 2 } : JobResult).wall_time = 2 :=
  ⟨(jobResult_wall_time_spec 2 3 (by norm_num) (by norm_num)).1,
   (jobResult_wall_time_spec 2 3 (by norm_num) (by norm_num)).2.2⟩

/-- Claim C6, counterexample to the original statement: with
`static_dpb_service_instance = some ""` the service is user-managed (line 152
tests `is not None`), yet `cluster_id` is `"pkb-" ++ run_uri` and not the
(empty) instance name, because line 158 tests Python truthiness and the empty
string is falsy. -/
theorem userManaged_empty_instance_counterexample :
    (BaseDpbServiceInit { static_dpb_service_instance := some "" } "run1").user_managed = true
  ∧ (BaseDpbServiceInit { static_dpb_service_instance := some "" } "run1").cluster_id
      = "pkb-run1"
  ∧ (BaseDpbServiceInit { static_dpb_service_instance := some "" } "run1").cluster_id
      ≠ "" := by
  refine ⟨rfl, by decide, by decide⟩

/-- Claim C6 (amended): a DPB service built from a spec with
`static_dpb_service_instance` set is user-managed and the lifecycle engine's
`Create()` and `Delete()` never invoke the backend creation hook `_Create` or
deletion hook `_Delete` on it; when the pre-existing instance name is
non-empty (the truthiness test of line 158), `cluster_id` equals that
name. -/
theorem userManaged_never_invokes_hooks (dpb_service_spec : DpbServiceSpec)
    (run_uri inst : String)
    (h : dpb_service_spec.static_dpb_service_instance = some inst) :
    (BaseDpbServiceInit dpb_service_spec run_uri).user_managed = true
  ∧ (inst ≠ "" → (BaseDpbServiceInit dpb_service_spec run_uri).cluster_id = inst)
  ∧ LifecycleEvent.createHook ∉
      ResourceCreate (BaseDpbServiceInit dpb_service_spec run_uri).user_managed
  ∧ LifecycleEvent.deleteHook ∉
      ResourceDelete (BaseDpbServiceInit dpb_service_spec run_uri).user_managed := by
  refine ⟨by simp [BaseDpbServiceInit, h], fun hne => ?_, ?_, ?_⟩
  · have htr : truthyStr (some inst) = true := by
      show (!inst.isEmpty) = true
      cases hie : inst.isEmpty
      · rfl
      · exact absurd ((String.isEmpty_iff inst).mp hie) hne
    simp [BaseDpbServiceInit, htr, h]
  · simp [BaseDpbServiceInit, ResourceCreate, h]
  · simp [BaseDpbServiceInit, ResourceDelete, h]

theorem userManaged_never_invokes_hooks_witness :
    (BaseDpbServiceInit { static_dpb_service_instance := some "my-cluster" } "run1").user_managed
      = true
  ∧ (BaseDpbServiceInit { static_dpb_service_instance := some "my-cluster" } "run1").cluster_id
      = "my-cluster"
  ∧ LifecycleEvent.createHook ∉ ResourceCreate
      (BaseDpbServiceInit { static_dpb_service_instance := some "my-cluster" } "run1").user_managed
  ∧ LifecycleEvent.deleteHook ∉ ResourceDelete
      (BaseDpbServiceInit { static_dpb_service_instance := some "my-cluster" } "run1").user_managed :=
  have h := userManaged_never_invokes_hooks { static_dpb_service_instance := some "my-cluster" }
    "run1" "my-cluster" rfl
  ⟨h.1, h.2.1 (by decide), h.2.2.1, h.2.2.2⟩

/-- Claim C7: on the synchronous unmanaged yarn and spark backends, every
invocation of `_GetCompletedJob` raises `NotImplementedError`, which is not
among the retryable exception types of the polling protocol, so `_WaitForJob`
run against such a backend fails fast with that error instead of retrying. -/
theorem sync_getCompletedJob_fails_fast (job_id : String) :
    YarnGetCompletedJob job_id =
      Except.error (DpbError.notImplementedError "Submitting Job via SSH is a blocking command.")
  ∧ SparkGetCompletedJob job_id =
      Except.error (DpbError.notImplementedError "Submitting Job via SSH is a blocking command.")
  ∧ (∀ msg, isRetryable (DpbError.notImplementedError msg) = false)
  ∧ (∀ timeout poll_interval,
      WaitForJob job_id (fun n => YarnGetCompletedJob job_id) timeout poll_interval =
        RetryResult.err
          (DpbError.notImplementedError "Submitting Job via SSH is a blocking command.")) := by
  refine ⟨rfl, rfl, fun msg => rfl, fun timeout poll_interval => ?_⟩
  unfold WaitForJob
  cases retryBudget timeout poll_interval <;> rfl

/-- One step of the retry loop on a non-retryable exception: it propagates
immediately, whatever fuel remains. -/
theorem retryLoop_nonretryable {α : Type} (probe : Nat → Except DpbError α)
    (fuel n : Nat) (e : DpbError) (he : isRetryable e = false)
    (h : probe n = Except.error e) :
    RetryLoop probe fuel n = RetryResult.err e := by
  cases fuel <;> simp [RetryLoop, h, he]

/-- One step of the retry loop on a retryable exception with fuel left:
move to the next attempt. -/
theorem retryLoop_retryable_step {α : Type} (probe : Nat → Except DpbError α)
    (fuel n : Nat) (e : DpbError) (he : isRetryable e = true)
    (h : probe n = Except.error e) :
    RetryLoop probe (fuel + 1) n = RetryLoop probe fuel (n + 1) := by
  simp [RetryLoop, h, he]

/-- The retry loop on a retryable exception with no fuel left: timeout. -/
theorem retryLoop_retryable_timeout {α : Type} (probe : Nat → Except DpbError α)
    (n : Nat) (e : DpbError) (he : isRetryable e = true)
    (h : probe n = Except.error e) :
    RetryLoop probe 0 n = RetryResult.timeout := by
  simp [RetryLoop, h, he]

/-- The retry loop skips over `k` consecutive retryable attempts, consuming
`k` units of fuel. -/
theorem retryLoop_skip {α : Type} (probe : Nat → Except DpbError α) (k : Nat)
    (hpend : ∀ i, i < k → ∃ e, isRetryable e = true ∧ probe i = Except.error e) :
    ∀ fuel, k ≤ fuel → RetryLoop probe fuel 0 = RetryLoop probe (fuel - k) k := by
  suffices hgen : ∀ (k₀ : Nat)
      (hp : ∀ i, i < k₀ → ∃ e, isRetryable e = true ∧ probe i = Except.error e)
      (n fuel : Nat), n + k₀ ≤ fuel + n →
      (∀ i, i < k₀ → ∃ e, isRetryable e = true ∧ probe (n + i) = Except.error e) →
      RetryLoop probe fuel n = RetryLoop probe (fuel - k₀) (n + k₀) by
    intro fuel hk
    simpa using hgen k hpend 0 fuel (by omega) (by simpa using hpend)
  intro k₀
  induction k₀ with
  | zero => intro _ n fuel _ _; simp
  | succ m ih =>
    intro hp n fuel hle hpn
    obtain ⟨e, he, hprobe⟩ := hpn 0 (Nat.succ_pos m)
    obtain ⟨fuel', rfl⟩ : ∃ fuel', fuel = fuel' + 1 := by
      refine ⟨fuel - 1, ?_⟩; omega
    rw [retryLoop_retryable_step probe fuel' n e he (by simpa using hprobe)]
    have hrec := ih (fun i hi => hp i (Nat.lt_succ_of_lt hi)) (n + 1) fuel' (by omega)
      (fun i hi => by
        obtain ⟨e', he', hp'⟩ := hpn (i + 1) (by omega)
        refine ⟨e', he', ?_⟩
        have harith : n + 1 + i = n + (i + 1) := by omega
        rw [harith]; exact hp')
    rw [hrec]
    have h1 : fuel' - m = fuel' + 1 - (m + 1) := by omega
    have h2 : n + 1 + m = n + (m + 1) := by omega
    rw [h1, h2]

/-- Claim C1: in the polling protocol of `_WaitForJob`, the "job not yet
finished" condition — `_GetCompletedJob` returning `None`, raised internally
as `JobNotCompletedError` — is the only retryable condition; a poll attempt
in which `_GetCompletedJob` raises a definitive failure (any non-retryable
error, such as `JobSubmissionError`) propagates that failure to the caller
immediately without further retries; and if every attempt within the timeout
budget is still pending, the call fails with the timeout outcome, which is
distinct from any job-failure outcome. -/
theorem waitForJob_retry_spec (job_id : String)
    (gc : Nat → Except DpbError (Option JobResult))
    (timeout poll_interval : ℚ) (k : Nat) (e : DpbError)
    (he : isRetryable e = false) :
    ((∀ i, i < k → gc i = Except.ok none) → gc k = Except.error e →
      k ≤ retryBudget timeout poll_interval →
      WaitForJob job_id gc timeout poll_interval = RetryResult.err e)
  ∧ ((∀ i, i ≤ retryBudget timeout poll_interval → gc i = Except.ok none) →
      WaitForJob job_id gc timeout poll_interval = RetryResult.timeout)
  ∧ (∀ e', (RetryResult.timeout : RetryResult JobResult) ≠ RetryResult.err e')
  ∧ (∀ e', isRetryable e' = true ↔ ∃ msg, e' = DpbError.jobNotCompletedError msg) := by
  refine ⟨fun hpend hfail hk => ?_, fun hpend => ?_,
    fun e' h => RetryResult.noConfusion h, fun e' => ?_⟩
  · unfold WaitForJob
    rw [retryLoop_skip (Poll job_id gc) k
      (fun i hi => ⟨DpbError.jobNotCompletedError ("Job " ++ job_id ++ " not complete."),
        rfl, by simp [Poll, hpend i hi]⟩)
      (retryBudget timeout poll_interval) hk]
    exact retryLoop_nonretryable _ _ _ e he (by simp [Poll, hfail])
  · unfold WaitForJob
    rw [retryLoop_skip (Poll job_id gc) (retryBudget timeout poll_interval)
      (fun i hi => ⟨DpbError.jobNotCompletedError ("Job " ++ job_id ++ " not complete."),
        rfl, by simp [Poll, hpend i (le_of_lt hi)]⟩)
      (retryBudget timeout poll_interval) le_rfl]
    rw [Nat.sub_self]
    exact retryLoop_retryable_timeout _ _
      (DpbError.jobNotCompletedError ("Job " ++ job_id ++ " not complete.")) rfl
      (by simp [Poll, hpend _ le_rfl])
  · constructor
    · intro h
      cases e' <;> simp_all [isRetryable]
    · rintro ⟨msg, rfl⟩
      rfl

theorem waitForJob_retry_spec_witness :
    WaitForJob "job1"
      (fun n => if n = 0 then Except.ok none
                else Except.error (DpbError.jobSubmissionError none)) 10 1 =
      RetryResult.err (DpbError.jobSubmissionError none)
  ∧ WaitForJob "job1" (fun n => Except.ok none) 10 1 = RetryResult.timeout := by
  constructor
  · exact (waitForJob_retry_spec "job1"
      (fun n => if n = 0 then Except.ok none
                else Except.error (DpbError.jobSubmissionError none)) 10 1 1
      (DpbError.jobSubmissionError none) rfl).1
      (fun i hi => by
        have hi0 : i = 0 := by omega
        subst hi0
        rfl) rfl
      (by
        have hb : retryBudget 10 1 = (Rat.floor ((10 : ℚ) / 1)).toNat := by
          rw [retryBudget, if_pos (by norm_num)]
        have h1 : (1 : ℤ) ≤ Rat.floor ((10 : ℚ) / 1) := Rat.le_floor.2 (by norm_num)
        rw [hb]
        omega)
  · exact (waitForJob_retry_spec "job1" (fun n => Except.ok none) 10 1 0
      (DpbError.jobSubmissionError none) rfl).2.1 (fun i hi => rfl)

/-- Lookup finds the head of an association list when the key matches. -/
theorem lookup_cons_self {α β : Type} [BEq α] [LawfulBEq α] (a : α) (b : β)
    (l : List (α × β)) :
    List.lookup a ((a, b) :: l) = some b := by
  simp [List.lookup]

/-- Lookup skips the head of an association list when the key differs. -/
theorem lookup_cons_ne {α β : Type} [BEq α] [LawfulBEq α] (a : α) (b : β) (k : α)
    (l : List (α × β)) (h : k ≠ a) :
    List.lookup k ((a, b) :: l) = List.lookup k l := by
  simp [List.lookup, beq_false_of_ne h]

/-- `List.lookup` distributes over append. -/
theorem lookup_append (l₁ l₂ : List (String × String)) (k : String) :
    List.lookup k (l₁ ++ l₂) = (List.lookup k l₁).or (List.lookup k l₂) := by
  induction l₁ with
  | nil => simp
  | cons p l ih =>
    obtain ⟨a, b⟩ := p
    by_cases h : k = a
    · subst h
      simp [lookup_cons_self]
    · rw [List.cons_append, lookup_cons_ne a b k _ h, lookup_cons_ne a b k _ h, ih]

/-- A key that fails the membership test of `dictInsert` is absent. -/
theorem lookup_eq_none_of_any_eq_false (acc : List (String × String)) (k : String)
    (h : acc.any (fun p => p.1 = k) = false) : List.lookup k acc = none := by
  induction acc with
  | nil => rfl
  | cons p l ih =>
    obtain ⟨a, b⟩ := p
    simp only [List.any_cons, Bool.or_eq_false_iff, decide_eq_false_iff_not] at h
    have hne : k ≠ a := fun hk => h.1 hk.symm
    rw [lookup_cons_ne a b k l hne]
    exact ih h.2

/-- Overriding the value at a present key: looking up that key finds the new
value. -/
theorem lookup_map_override_self (acc : List (String × String)) (k' v : String)
    (hany : acc.any (fun p => p.1 = k') = true) :
    List.lookup k' (acc.map (fun p => if p.1 = k' then (k', v) else p)) = some v := by
  induction acc with
  | nil => simp at hany
  | cons p l ih =>
    obtain ⟨a, b⟩ := p
    by_cases hp : a = k'
    · subst hp
      simp only [List.map_cons, if_pos rfl]
      exact lookup_cons_self a v _
    · have hl : l.any (fun q => q.1 = k') = true := by
        simp only [List.any_cons, Bool.or_eq_true, decide_eq_true_eq] at hany
        rcases hany with h | h
        · exact absurd h hp
        · exact h
      have hne : k' ≠ a := fun h => hp h.symm
      simp only [List.map_cons, if_neg hp]
      rw [lookup_cons_ne a b k' _ hne]
      exact ih hl

/-- Overriding the value at one key: looking up any other key is
unaffected. -/
theorem lookup_map_override_ne (acc : List (String × String)) (k' v k : String)
    (hk : k ≠ k') :
    List.lookup k (acc.map (fun p => if p.1 = k' then (k', v) else p)) =
      List.lookup k acc := by
  induction acc with
  | nil => rfl
  | cons p l ih =>
    obtain ⟨a, b⟩ := p
    by_cases hp : a = k'
    · subst hp
      simp only [List.map_cons, eq_self_iff_true, if_true]
      rw [lookup_cons_ne a v k _ hk, lookup_cons_ne a b k _ hk]
      exact ih
    · simp only [List.map_cons, if_neg hp]
      by_cases hka : k = a
      · subst hka
        rw [lookup_cons_self, lookup_cons_self]
      · rw [lookup_cons_ne a b k _ hka, lookup_cons_ne a b k _ hka]
        exact ih

/-- Lookup after a Python-style dict insertion: the inserted key maps to the
new value and every other key is untouched. -/
theorem lookup_dictInsert (acc : List (String × String)) (k' v k : String) :
    List.lookup k (dictInsert acc k' v) =
      if k = k' then some v else List.lookup k acc := by
  by_cases hany : acc.any (fun p => p.1 = k') = true
  · unfold dictInsert
    rw [if_pos hany]
    by_cases hk : k = k'
    · subst hk
      rw [if_pos rfl]
      exact lookup_map_override_self acc k v hany
    · rw [if_neg hk]
      exact lookup_map_override_ne acc k' v k hk
  · have hany' : acc.any (fun p => p.1 = k') = false := by
      cases h : acc.any (fun p => p.1 = k') with
      | true => exact absurd h hany
      | false => rfl
    unfold dictInsert
    rw [if_neg hany, lookup_append]
    by_cases hk : k = k'
    · subst hk
      rw [lookup_eq_none_of_any_eq_false acc k hany', lookup_cons_self, if_pos rfl]
      rfl
    · rw [if_neg hk, lookup_cons_ne k' v k [] hk]
      simp

/-- Lookup after a Python-style `dict.update`: when the update's keys are
unambiguous, the updated value wins on collision and the base value survives
otherwise. -/
theorem lookup_dictUpdate (base upd : List (String × String)) (k : String)
    (hnd : (upd.map Prod.fst).Nodup) :
    List.lookup k (dictUpdate base upd) =
      (List.lookup k upd).or (List.lookup k base) := by
  induction upd generalizing base with
  | nil => simp [dictUpdate]
  | cons p l ih =>
    obtain ⟨a, b⟩ := p
    have hnd' : (l.map Prod.fst).Nodup := (List.nodup_cons.mp hnd).2
    have hnotin : a ∉ l.map Prod.fst := (List.nodup_cons.mp hnd).1
    have hstep : dictUpdate base ((a, b) :: l) = dictUpdate (dictInsert base a b) l := rfl
    rw [hstep, ih (dictInsert base a b) hnd', lookup_dictInsert]
    by_cases hk : k = a
    · subst hk
      have hlnone : List.lookup k l = none := by
        apply lookup_eq_none_of_any_eq_false
        simp only [List.any_eq_false, decide_eq_true_eq]
        rintro ⟨a', b'⟩ hq hqk
        exact hnotin (hqk ▸ List.mem_map_of_mem Prod.fst hq)
      rw [hlnone, lookup_cons_self, if_pos rfl]
      rfl
    · rw [if_neg hk, lookup_cons_ne a b k l hk]

/-- Claim C5: the effective properties of a `SubmitJob` call are the default
properties from `GetJobProperties` merged with the caller-supplied properties
dict, the caller's value winning on any key collision; defaults
`a=1` merged with caller `a=2, b=3` yield exactly `a=2, b=3`; a
caller-supplied `properties` of `None` leaves the defaults unchanged. -/
theorem submitJob_properties_merge (defaults props : List (String × String)) (k : String)
    (hnd : (props.map Prod.fst).Nodup) :
    List.lookup k (effectiveProperties defaults (some props)) =
      (List.lookup k props).or (List.lookup k defaults)
  ∧ effectiveProperties defaults none = defaults
  ∧ effectiveProperties [("a", "1")] (some [("a", "2"), ("b", "3")])
      = [("a", "2"), ("b", "3")] := by
  refine ⟨?_, rfl, by decide⟩
  exact lookup_dictUpdate defaults props k hnd

theorem submitJob_properties_merge_witness :
    effectiveProperties [("a", "1")] (some [("a", "2"), ("b", "3")])
      = [("a", "2"), ("b", "3")]
  ∧ List.lookup "a" (effectiveProperties [("a", "1")] (some [("a", "2"), ("b", "3")]))
      = some "2" := by
  have h := submitJob_properties_merge [("a", "1")] [("a", "2"), ("b", "3")] "a" (by decide)
  exact ⟨h.2.2, h.1.trans (by decide)⟩

/-- Claim C9: `DistributedCopy(source, destination, properties)` is exactly
`SubmitJob` with classname `org.apache.hadoop.tools.DistCp`, job arguments
`[source, destination]` in that order, the hadoop job type, the given
properties forwarded unchanged, and every other argument left at its `None`
default; it returns whatever that `SubmitJob` call returns. -/
theorem distributedCopy_is_submitJob (submitJob : SubmitJobArgs → Except DpbError JobResult)
    (source destination : String) (properties : Option (List (String × String))) :
    DistributedCopy submitJob source destination properties =
      submitJob
        { jarfile := none
          classname := some "org.apache.hadoop.tools.DistCp"
          pyspark_file := none
          query_file := none
          job_poll_interval := none
          job_stdout_file := none
          job_arguments := some [source, destination]
          job_files := none
          job_jars := none
          job_type := some HADOOP_JOB_TYPE
          properties := properties } :=
  rfl

/-- Claim C10: in `UnmanagedDpbSparkCluster.SubmitJob`, whenever `job_files`
is a non-empty list the submitted command consists only of `--files`, the
comma-joined `job_files`, the main jar or pyspark file, and the job
arguments: the spark-submit executable, the `--class <classname>` entry and
every `--conf key=value` pair are absent, because line 539 reassigns the
command list instead of extending it. -/
theorem sparkCmd_files_clobbers_command (defaults : List (String × String))
    (args : SubmitJobArgs) (files : List String)
    (hf : args.job_files = some files) (hne : files ≠ []) :
    (∀ jar, args.job_type = some SPARK_JOB_TYPE → args.jarfile = some jar → jar ≠ "" →
      buildSparkCmd defaults args =
        Except.ok (["--files", String.intercalate "," files, jar]
          ++ args.job_arguments.getD []))
  ∧ (∀ py, args.job_type = some PYSPARK_JOB_TYPE → args.pyspark_file = some py → py ≠ "" →
      buildSparkCmd defaults args =
        Except.ok (["--files", String.intercalate "," files, py]
          ++ args.job_arguments.getD [])) := by
  have hfiles : truthyList (some files) = true := by
    show (!files.isEmpty) = true
    cases hfe : files.isEmpty
    · rfl
    · exact absurd (List.isEmpty_iff.mp hfe) hne
  constructor
  · intro jar ht hj hjne
    have hjar : truthyStr (some jar) = true := by
      show (!jar.isEmpty) = true
      cases hie : jar.isEmpty
      · rfl
      · exact absurd ((String.isEmpty_iff jar).mp hie) hjne
    cases hja : args.job_arguments with
    | none =>
      simp [buildSparkCmd, hf, ht, hj, hja, hfiles, hjar]
    | some l =>
      cases l with
      | nil => simp [buildSparkCmd, hf, ht, hj, hja, hfiles, hjar, truthyList, hne]
      | cons x xs => simp [buildSparkCmd, hf, ht, hj, hja, hfiles, hjar, truthyList, hne]
  · intro py ht hp hpne
    have hpy : truthyStr (some py) = true := by
      show (!py.isEmpty) = true
      cases hie : py.isEmpty
      · rfl
      · exact absurd ((String.isEmpty_iff py).mp hie) hpne
    cases hja : args.job_arguments with
    | none =>
      simp [buildSparkCmd, hf, ht, hp, hja, hfiles, hpy, SPARK_JOB_TYPE, PYSPARK_JOB_TYPE]
    | some l =>
      cases l with
      | nil =>
        simp [buildSparkCmd, hf, ht, hp, hja, hfiles, hpy, truthyList, hne,
          SPARK_JOB_TYPE, PYSPARK_JOB_TYPE]
      | cons x xs =>
        simp [buildSparkCmd, hf, ht, hp, hja, hfiles, hpy, truthyList, hne,
          SPARK_JOB_TYPE, PYSPARK_JOB_TYPE]

theorem sparkCmd_files_clobbers_command_witness :
    buildSparkCmd [("p", "q")]
      { job_type := some SPARK_JOB_TYPE, jarfile := some "main.jar",
        classname := some "Cls", job_files := some ["f1", "f2"],
        job_arguments := some ["x", "y"] } =
      Except.ok (["--files", String.intercalate "," ["f1", "f2"], "main.jar"]
        ++ (some ["x", "y"] : Option (List String)).getD []) :=
  (sparkCmd_files_clobbers_command [("p", "q")]
    { job_type := some SPARK_JOB_TYPE, jarfile := some "main.jar",
      classname := some "Cls", job_files := some ["f1", "f2"],
      job_arguments := some ["x", "y"] } ["f1", "f2"] rfl (by decide)).1
    "main.jar" rfl rfl (by decide)

/-- `buildSparkCmd` never produces a transport error: its only failure is the
jar/pyspark assertion. -/
theorem buildSparkCmd_no_transport_error (defaults : List (String × String))
    (args : SubmitJobArgs) (e : RemoteCommandError) :
    buildSparkCmd defaults args ≠ Except.error (DpbError.remoteCommandError e) := by
  intro h
  unfold buildSparkCmd at h
  dsimp only at h
  by_cases h1 : args.job_type = some SPARK_JOB_TYPE
  · rw [if_pos h1] at h
    by_cases h2 : truthyStr args.jarfile = true
    · rw [if_pos h2] at h
      simp at h
    · rw [if_neg h2] at h
      simp at h
  · rw [if_neg h1] at h
    by_cases h3 : args.job_type = some PYSPARK_JOB_TYPE
    · rw [if_pos h3] at h
      by_cases h4 : truthyStr args.pyspark_file = true
      · rw [if_pos h4] at h
        simp at h
      · rw [if_neg h4] at h
        simp at h
    · rw [if_neg h3] at h
      simp at h

/-- Claim C3: whenever the remote-command transport fails during `SubmitJob`
— on either unmanaged backend — `SubmitJob` fails with a
`JobSubmissionError` wrapping the underlying transport error as its cause,
and the transport's own `RemoteCommandError` never propagates out of
`SubmitJob`. -/
theorem submitJob_wraps_transport_errors (defaults : List (String × String))
    (start_time end_time : ℚ) (args : SubmitJobArgs) :
    (∀ (transport : String → Except RemoteCommandError (String × String))
        (e : RemoteCommandError),
        args.job_type = some HADOOP_JOB_TYPE →
        transport (String.intercalate " " (buildYarnCmd defaults args)) = Except.error e →
        YarnSubmitJob defaults transport start_time end_time args =
          Except.error (DpbError.jobSubmissionError (some e)))
  ∧ (∀ (transport : String → Except RemoteCommandError (String × String))
        (e : RemoteCommandError) (cmd : List String),
        (args.job_type = some PYSPARK_JOB_TYPE ∨ args.job_type = some SPARK_JOB_TYPE) →
        buildSparkCmd defaults args = Except.ok cmd →
        transport (String.intercalate " " cmd) = Except.error e →
        SparkSubmitJob defaults transport start_time end_time args =
          Except.error (DpbError.jobSubmissionError (some e)))
  ∧ (∀ (transport : String → Except RemoteCommandError (String × String))
        (e : RemoteCommandError),
        YarnSubmitJob defaults transport start_time end_time args ≠
          Except.error (DpbError.remoteCommandError e))
  ∧ (∀ (transport : String → Except RemoteCommandError (String × String))
        (e : RemoteCommandError),
        SparkSubmitJob defaults transport start_time end_time args ≠
          Except.error (DpbError.remoteCommandError e)) := by
  refine ⟨fun transport e ht htr => ?_, fun transport e cmd ht hb htr => ?_,
    fun transport e => ?_, fun transport e => ?_⟩
  · unfold YarnSubmitJob
    rw [if_neg (by simp [ht]), htr]
  · unfold SparkSubmitJob
    rw [if_pos ht, hb]
    dsimp only
    rw [htr]
  · intro h
    unfold YarnSubmitJob at h
    by_cases ht : args.job_type ≠ some HADOOP_JOB_TYPE
    · rw [if_pos ht] at h
      simp at h
    · rw [if_neg ht] at h
      cases htr : transport (String.intercalate " " (buildYarnCmd defaults args)) with
      | error e' => rw [htr] at h; simp at h
      | ok v => rw [htr] at h; simp at h
  · intro h
    unfold SparkSubmitJob at h
    by_cases ht : args.job_type = some PYSPARK_JOB_TYPE ∨ args.job_type = some SPARK_JOB_TYPE
    · rw [if_pos ht] at h
      cases hb : buildSparkCmd defaults args with
      | error e' =>
        rw [hb] at h
        obtain rfl : e' = DpbError.remoteCommandError e := by simpa using h
        exact buildSparkCmd_no_transport_error defaults args e hb
      | ok cmd =>
        rw [hb] at h
        dsimp only at h
        cases htr : transport (String.intercalate " " cmd) with
        | error e' => rw [htr] at h; simp at h
        | ok v => rw [htr] at h; simp at h
    · rw [if_neg ht] at h
      simp at h

theorem submitJob_wraps_transport_errors_witness :
    YarnSubmitJob [] (fun s => Except.error { msg := "boom" }) 0 1
      { job_type := some HADOOP_JOB_TYPE } =
      Except.error (DpbError.jobSubmissionError (some { msg := "boom" }))
  ∧ SparkSubmitJob [] (fun s => Except.error { msg := "boom" }) 0 1
      { job_type := some SPARK_JOB_TYPE, jarfile := some "a.jar" } =
      Except.error (DpbError.jobSubmissionError (some { msg := "boom" })) := by
  constructor
  · exact (submitJob_wraps_transport_errors [] 0 1 { job_type := some HADOOP_JOB_TYPE }).1
      (fun s => Except.error { msg := "boom" }) { msg := "boom" } rfl rfl
  · exact (submitJob_wraps_transport_errors [] 0 1
      { job_type := some SPARK_JOB_TYPE, jarfile := some "a.jar" }).2.1
      (fun s => Except.error { msg := "boom" }) { msg := "boom" }
      [SPARK_SUBMIT, "a.jar"] (Or.inr rfl) rfl rfl

/-- An index whose target is out of range never appears among the completion
pairs, whatever the completion order. -/
theorem runCompletionOrder_lookup_of_get_none {α β : Type} (f : α → β)
    (targets : List α) (order : List Nat) (i : Nat)
    (hg : targets.get? i = none) :
    List.lookup i (RunCompletionOrder f targets order) = none := by
  induction order with
  | nil => rfl
  | cons j rest ih =>
    cases hgj : targets.get? j with
    | none =>
      have hgd : (targets.get? j).map (fun t => (j, f t)) = none := by
        rw [hgj]; rfl
      unfold RunCompletionOrder
      rw [List.filterMap_cons_none
        (f := fun x => Option.map (fun t => (x, f t)) (targets.get? x)) hgd]
      exact ih
    | some t =>
      have hij : i ≠ j := fun h => by rw [h, hgj] at hg; cases hg
      have hgd : (targets.get? j).map (fun t => (j, f t)) = some (j, f t) := by
        rw [hgj]; rfl
      unfold RunCompletionOrder
      rw [List.filterMap_cons_some
        (f := fun x => Option.map (fun t => (x, f t)) (targets.get? x)) hgd,
        lookup_cons_ne j (f t) i _ hij]
      exact ih

/-- The result collected for an index that some thread ran is the function
applied to that index's target, whatever the completion order. -/
theorem runCompletionOrder_lookup {α β : Type} (f : α → β) (targets : List α)
    (order : List Nat) (i : Nat) (hmem : i ∈ order) :
    List.lookup i (RunCompletionOrder f targets order) = (targets.get? i).map f := by
  induction order with
  | nil => cases hmem
  | cons j rest ih =>
    by_cases hij : i = j
    · subst hij
      cases hg : targets.get? i with
      | none =>
        have hgd : (targets.get? i).map (fun t => (i, f t)) = none := by
          rw [hg]; rfl
        unfold RunCompletionOrder
        rw [List.filterMap_cons_none
          (f := fun x => Option.map (fun t => (x, f t)) (targets.get? x)) hgd]
        exact runCompletionOrder_lookup_of_get_none f targets rest i hg
      | some t =>
        have hgd : (targets.get? i).map (fun t => (i, f t)) = some (i, f t) := by
          rw [hg]; rfl
        unfold RunCompletionOrder
        rw [List.filterMap_cons_some
          (f := fun x => Option.map (fun t => (x, f t)) (targets.get? x)) hgd,
          lookup_cons_self i (f t) _]
        rfl
    · have hmem' : i ∈ rest := by
        rcases List.mem_cons.mp hmem with h | h
        · exact absurd h hij
        · exact h
      cases hg : targets.get? j with
      | none =>
        have hgd : (targets.get? j).map (fun t => (j, f t)) = none := by
          rw [hg]; rfl
        unfold RunCompletionOrder
        rw [List.filterMap_cons_none
          (f := fun x => Option.map (fun t => (x, f t)) (targets.get? x)) hgd]
        exact ih hmem'
      | some t =>
        have hgd : (targets.get? j).map (fun t => (j, f t)) = some (j, f t) := by
          rw [hg]; rfl
        unfold RunCompletionOrder
        rw [List.filterMap_cons_some
          (f := fun x => Option.map (fun t => (x, f t)) (targets.get? x)) hgd,
          lookup_cons_ne j (f t) i _ hij]
        exact ih hmem'

/-- Collecting the per-index results over the index range is the same as
mapping the function over the targets. -/
theorem filterMap_range_get {α β : Type} (f : α → β) (targets : List α) :
    (List.range targets.length).filterMap (fun i => (targets.get? i).map f) =
      targets.map f := by
  induction targets with
  | nil => rfl
  | cons t ts ih =>
    have hhead : (fun i => (((t :: ts).get? i).map f)) 0 = some (f t) := rfl
    rw [List.length_cons, List.range_succ_eq_map,
      List.filterMap_cons_some (f := fun i => ((t :: ts).get? i).map f) hhead,
      List.filterMap_map]
    have hcomp : ((fun i => ((t :: ts).get? i).map f) ∘ Nat.succ) =
        fun i => (ts.get? i).map f := rfl
    rw [hcomp, ih, List.map_cons]

/-- Claim C8: for every ordered collection of N targets and every per-target
function, the concurrent runner returns exactly N results aligned to the
input order of the targets, regardless of the completion order of the
concurrent invocations; e.g. targets `[a,b,c]` with the function appending
`!` yield `[a!,b!,c!]` under a scrambled completion order. -/
theorem runThreaded_input_order {α β : Type} (f : α → β) (targets : List α)
    (order : List Nat) (hperm : order.Perm (List.range targets.length)) :
    RunThreaded f targets order = targets.map f
  ∧ (RunThreaded f targets order).length = targets.length
  ∧ RunThreaded (fun s => s ++ "!") ["a", "b", "c"] [2, 0, 1] = ["a!", "b!", "c!"] := by
  have hmain : RunThreaded f targets order = targets.map f := by
    unfold RunThreaded
    have hcongr : ∀ i ∈ List.range targets.length,
        List.lookup i (RunCompletionOrder f targets order) = (targets.get? i).map f :=
      fun i hi => runCompletionOrder_lookup f targets order i (hperm.mem_iff.mpr hi)
    rw [List.filterMap_congr hcongr]
    exact filterMap_range_get f targets
  refine ⟨hmain, ?_, by decide⟩
  rw [hmain, List.length_map]

theorem runThreaded_input_order_witness :
    RunThreaded (fun s => s ++ "!") ["a", "b", "c"] [1, 2, 0] = ["a!", "b!", "c!"]
  ∧ (RunThreaded (fun s => s ++ "!") ["a", "b", "c"] [1, 2, 0]).length = 3 := by
  have h := runThreaded_input_order (fun s => s ++ "!") ["a", "b", "c"] [1, 2, 0]
    (by decide)
  exact ⟨h.1.trans (by decide), h.2.1⟩

end PKB
